import Mathlib

/-!
Shallow embedding of the neuriplo inference-abstraction layer: model I/O
metadata, per-backend shape resolution, input-buffer validation, error
dispositions at the backend boundary, the wire serialization of inference
results, and the HTTP server's request counters and stats handler.

Machine integers are modelled as Nat/Int with explicit reduction modulo
2^64 where the C++ source performs size_t arithmetic.
-/

namespace Neuriplo

/-- Modulus of size_t arithmetic (64-bit). -/
def size64 : Nat := 2 ^ 64

/-- size_t multiplication, wrapping modulo 2^64. -/
def mul64 (a b : Nat) : Nat := a * b % size64

/-- size_t subtraction, wrapping modulo 2^64. -/
def sub64 (a b : Nat) : Nat := (a % size64 + size64 - b % size64) % size64

/-- Exception-propagating loop over a list: the C++ pattern of a for-loop
of fallible steps accumulating results with push_back, where a throw
aborts the whole traversal. -/
def mapExcept {α β ε : Type} (f : α → Except ε β) : List α → Except ε (List β)
  | [] => .ok []
  | a :: as =>
    match f a with
    | .error e => .error e
    | .ok b =>
      match mapExcept f as with
      | .error e => .error e
      | .ok bs => .ok (b :: bs)

/-! ## ModelInfo (src/backends/src/ModelInfo.cpp) -/

/-- One (name, shape, batch_size) record, as pushed by ModelInfo::addInput
and ModelInfo::addOutput. -/
structure LayerInfo where
  name : String
  shape : List Int
  batch_size : Nat
deriving DecidableEq, Repr

structure ModelInfo where
  inputs : List LayerInfo
  outputs : List LayerInfo
deriving DecidableEq, Repr

def ModelInfo.addInput (m : ModelInfo) (name : String) (shape : List Int)
    (batch_size : Nat) : ModelInfo :=
  { m with inputs := m.inputs ++ [⟨name, shape, batch_size⟩] }

def ModelInfo.addOutput (m : ModelInfo) (name : String) (shape : List Int)
    (batch_size : Nat) : ModelInfo :=
  { m with outputs := m.outputs ++ [⟨name, shape, batch_size⟩] }

def emptyModelInfo : ModelInfo := ⟨[], []⟩

/-- InferenceInterface::get_model_info (noexcept): when both collections are
empty it appends a default input ("input", [3,224,224], batch 1) and a
default output ("output", [1000], batch 1) to the stored metadata and
returns the result; otherwise it returns the metadata unchanged. -/
def get_model_info (m : ModelInfo) : ModelInfo :=
  if m.inputs.isEmpty && m.outputs.isEmpty then
    (m.addInput "input" [3, 224, 224] 1).addOutput "output" [1000] 1
  else m

/-! ## Performance counters (src/backends/src/InferenceInterface.cpp) -/

structure PerfCounters where
  last_inference_time_ms : ℚ
  total_inferences : Nat
deriving DecidableEq, Repr

/-- InferenceInterface::end_timer: stores the elapsed time of the last call
and increments the total-inference counter. -/
def end_timer (c : PerfCounters) (elapsed_ms : ℚ) : PerfCounters :=
  { last_inference_time_ms := elapsed_ms,
    total_inferences := c.total_inferences + 1 }

/-- ORTInfer::get_infer_results contains no start_timer or end_timer call:
the counters of the instance are left untouched by a successful call. -/
def ortInferCounters (c : PerfCounters) : PerfCounters := c

/-- TVMInfer::get_infer_results calls start_timer on entry and end_timer
just before returning on the success path. -/
def tvmInferCountersSuccess (c : PerfCounters) (elapsed_ms : ℚ) : PerfCounters :=
  end_timer c elapsed_ms

/-- GGMLInfer::get_infer_results calls end_timer both on the success path
and inside the catch block before rethrowing. -/
def ggmlInferCountersFailure (c : PerfCounters) (elapsed_ms : ℚ) : PerfCounters :=
  end_timer c elapsed_ms

/-! ## ORT shape resolution (ORTInfer::ORTInfer, input loop) -/

/-- The distinct throw sites of the ORT constructor's per-input shape
handling, in source order. -/
inductive OrtInitError
  | missingOverride (name : String)
  | notEnoughDims (name : String)
  | arityMismatch (name : String) (expected got : Nat)
deriving DecidableEq, Repr

/-- ORTInfer::ORTInfer, body of the input loop for input i with declared
shape `declared` and user overrides `input_sizes`:
  has_dynamic scans positions 1..end for the -1 sentinel;
  position 0 is replaced by batch_size only when it is itself -1;
  the override branch is entered when has_dynamic or an override exists
  for index i, and on success replaces positions 1..end by the override.
The source indexes shapes[0] unconditionally; ONNX tensor shapes are
nonempty, and the [] case below is never exercised by the theorems. -/
def ortResolveInput (name : String) (declared : List Int)
    (input_sizes : List (List Int)) (i : Nat) (batch_size : Nat) :
    Except OrtInitError (List Int) :=
  match declared with
  | [] => .ok []
  | d0 :: rest =>
    let d0r : Int := if d0 = -1 then (batch_size : Int) else d0
    if (-1 : Int) ∈ rest ∨ (input_sizes ≠ [] ∧ i < input_sizes.length) then
      if input_sizes = [] ∨ input_sizes.length ≤ i then
        .error (.missingOverride name)
      else
        let provided := input_sizes.getD i []
        if (-1 : Int) ∈ rest then
          if provided.length < (rest.filter (fun d => d == -1)).length then
            .error (.notEnoughDims name)
          else if provided.length ≠ rest.length then
            .error (.arityMismatch name rest.length provided.length)
          else
            .ok (d0r :: provided)
        else
          if provided.length ≠ rest.length then
            .error (.arityMismatch name rest.length provided.length)
          else
            .ok (d0r :: provided)
    else
      .ok (d0r :: rest)

/-- The ORT constructor's whole input loop: inputs are processed in order
with their session index; the first throw aborts initialization. -/
def ortResolveInputsFrom (input_sizes : List (List Int)) (batch_size : Nat) :
    Nat → List (String × List Int) → Except OrtInitError (List (String × List Int))
  | _, [] => .ok []
  | i, (name, declared) :: rest =>
    match ortResolveInput name declared input_sizes i batch_size with
    | .error e => .error e
    | .ok shape =>
      match ortResolveInputsFrom input_sizes batch_size (i + 1) rest with
      | .error e => .error e
      | .ok tail => .ok ((name, shape) :: tail)

def ortResolveInputs (decls : List (String × List Int))
    (input_sizes : List (List Int)) (batch_size : Nat) :
    Except OrtInitError (List (String × List Int)) :=
  ortResolveInputsFrom input_sizes batch_size 0 decls

/-! ## Libtorch shape resolution (LibtorchInfer::LibtorchInfer, input loop) -/

inductive TorchInitError
  | missingOverride (name : String)
  | arityMismatch (name : String) (expected got : Nat)
deriving DecidableEq, Repr

/-- LibtorchInfer::LibtorchInfer, body of the input loop: a shape is dynamic
when the graph reports no concrete sizes (`none`); a dynamic shape takes the
override verbatim, including its position 0; a fixed shape keeps position 0
and replaces positions 1..end from the override after an arity check against
declared.length - 1 (that subtraction is size_t arithmetic in the source,
hence the size64 - 1 expected arity for an empty declared shape). -/
def libtorchResolveInput (name : String) (declared : Option (List Int))
    (input_sizes : List (List Int)) (idx : Nat) :
    Except TorchInitError (List Int) :=
  if declared = none ∨ (input_sizes ≠ [] ∧ idx < input_sizes.length) then
    if input_sizes = [] ∨ input_sizes.length ≤ idx then
      .error (.missingOverride name)
    else if declared = none then
      .ok (input_sizes.getD idx [])
    else
      match declared.getD [] with
      | [] => .error (.arityMismatch name (size64 - 1) (input_sizes.getD idx []).length)
      | f0 :: frest =>
        let provided := input_sizes.getD idx []
        if provided.length ≠ frest.length then
          .error (.arityMismatch name frest.length provided.length)
        else
          .ok (f0 :: provided)
  else
    .ok (declared.getD [])

/-! ## TensorRT input-dims selection
(TRTInfer::createContextAndAllocateBuffers, first pass) -/

/-- nvinfer1::Dims::MAX_DIMS. -/
def trtMaxDims : Nat := 8

/-- Dims set on the TensorRT execution context for one input, given the
engine-declared dims and the user override: an override of the full rank is
used as-is; one of rank-1 gets the batch size prepended; any other length
falls into the fallback, which uses the override truncated to MAX_DIMS.
No branch reports an error. -/
def trtSetInputDims (engine_dims : List Int) (override : List Int)
    (batch_size : Nat) : List Int :=
  if override.length = engine_dims.length then
    override
  else if override.length = engine_dims.length - 1 then
    (batch_size : Int) :: override
  else
    override.take trtMaxDims

/-! ## Input-buffer validation at inference time -/

/-- ONNX Runtime element-type tags relevant to the input switch of
ORTInfer::get_infer_results; `other` stands for the default case. -/
inductive OnnxType
  | float | uint8 | int8 | int32 | int64 | boolean | other
deriving DecidableEq, Repr

/-- Element sizes assigned by the first switch of ORTInfer::get_infer_results;
the default case throws ("Unsupported input data type"). -/
def ortElementSize : OnnxType → Option Nat
  | .float => some 4
  | .int32 => some 4
  | .uint8 => some 1
  | .int8 => some 1
  | .boolean => some 1
  | .int64 => some 8
  | .other => none

/-- expected_elements in ORTInfer::get_infer_results: a size_t product over
the stored input shape, where a negative dimension contributes factor 1. -/
def ortExpectedElements (shape : List Int) : Nat :=
  shape.foldl (fun acc d => mul64 acc (if d < 0 then 1 else d.toNat)) 1

/-- Whether the prologue of a get_infer_results call throws or proceeds to
native execution. -/
inductive InferCheck
  | proceeds
  | throws (msg : String)
deriving DecidableEq, Repr

/-- ORTInfer::get_infer_results input validation: unsupported element types
throw, and a buffer whose byte length differs from
expected_elements * element_size throws ("Input data size mismatch"). -/
def ortValidateInputSize (shape : List Int) (t : OnnxType) (buflen : Nat) :
    InferCheck :=
  match ortElementSize t with
  | none => .throws "Unsupported input data type"
  | some esz =>
    if buflen ≠ mul64 (ortExpectedElements shape) esz then
      .throws "Input data size mismatch"
    else .proceeds

/-- expected_elements in OCVDNNInfer::get_infer_results: a size_t product of
the stored input shape entries (each converted from int64 to size_t). -/
def ocvdnnExpectedElements (shape : List Int) : Nat :=
  shape.foldl (fun acc d => mul64 acc (Int.toNat (d % (size64 : Int)))) 1

/-- OCVDNNInfer::get_infer_results prologue: the input-count check throws,
but the byte-length comparison against expected_elements * sizeof(float)
has a comment-only body on every branch in the source, so both outcomes of
the comparison fall through to building the cv::Mat. -/
def ocvdnnInputCheck (numInputs : Nat) (shape : List Int) (buflen : Nat) :
    InferCheck :=
  if numInputs ≠ 1 then
    .throws "OpenCV DNN backend currently supports only single input models"
  else
    if buflen = mul64 (ocvdnnExpectedElements shape) 4 then
      .proceeds
    else
      .proceeds

/-- vol in TRTInfer::get_infer_results: size_t product over context dims,
negative dims contributing factor 1. -/
def trtVol (dims : List Int) : Nat :=
  dims.foldl (fun acc d => mul64 acc (if d < 0 then 1 else d.toNat)) 1

/-- TRTInfer::get_infer_results steps 4 and 5: a byte-length mismatch only
emits a LOG(WARNING); cudaMemcpy then copies actual_bytes from the caller's
buffer. Result: (warning emitted, bytes copied to the device). -/
def trtInputValidation (dims : List Int) (element_size actual_bytes : Nat) :
    Bool × Nat :=
  (decide (actual_bytes ≠ mul64 (trtVol dims) element_size), actual_bytes)

/-- LibtorchInfer::get_infer_results: the only buffer check is divisibility
of the byte length by the element size; torch::from_blob then reads
product(shape) elements from the buffer regardless of its length. -/
def libtorchInputCheck (element_size buflen : Nat) : InferCheck :=
  if buflen % element_size ≠ 0 then
    .throws "Input buffer size not multiple of element size"
  else .proceeds

/-! ## Error disposition at the backend boundary -/

/-- How a backend constructor leaves the process when the native model-load
step succeeds or fails. -/
inductive LoadOutcome
  | ready
  | throwsModelLoad (msg : String)
  | exitProcess (code : Nat)
deriving DecidableEq, Repr

/-- ORTInfer::ORTInfer wraps Ort::Session construction in try/catch whose
catch block logs the Ort::Exception and calls std::exit(1). -/
def ortLoadModel (native_load_ok : Bool) : LoadOutcome :=
  if native_load_ok then .ready else .exitProcess 1

/-- LibtorchInfer::LibtorchInfer wraps torch::jit::load in try/catch whose
catch block logs the c10::Error and calls std::exit(1). -/
def libtorchLoadModel (native_load_ok : Bool) : LoadOutcome :=
  if native_load_ok then .ready else .exitProcess 1

/-- TVMInfer's load path wraps its body in try/catch and rethrows any
std::exception as ModelLoadException(e.what()). -/
def tvmLoadModel (native_load_ok : Bool) (msg : String) : LoadOutcome :=
  if native_load_ok then .ready else .throwsModelLoad msg

/-- How a get_infer_results call ends. -/
inductive InferOutcome
  | results
  | throwsInferExec (msg : String)
  | exitProcess (code : Nat)
deriving DecidableEq, Repr

/-- TVMInfer::get_infer_results rethrows any std::exception as
InferenceExecutionException(e.what()). -/
def tvmRunInference (native_ok : Bool) (msg : String) : InferOutcome :=
  if native_ok then .results else .throwsInferExec msg

/-- GGMLInfer::get_infer_results rethrows any std::exception as
InferenceExecutionException(e.what()). -/
def ggmlRunInference (native_ok : Bool) (msg : String) : InferOutcome :=
  if native_ok then .results else .throwsInferExec msg

/-- ORTInfer::get_infer_results output decoding: FLOAT and INT64 tensors are
converted; any other element type hits the default case, which logs
"Unsupported tensor type" and calls std::exit(1). -/
def ortDecodeOutputOutcome : OnnxType → InferOutcome
  | .float => .results
  | .int64 => .results
  | _ => .exitProcess 1

/-! ## Wire serialization (src/server/src/Serialization.hpp) -/

/-- TensorElement = std::variant of float, int32_t, int64_t, uint8_t.
Float payloads are modelled as exact rationals. -/
inductive TensorElement
  | f32 (x : ℚ)
  | i32 (x : Int)
  | i64 (x : Int)
  | u8 (x : Nat)
deriving DecidableEq, Repr

/-- A JSON number as produced by nlohmann::json: either a floating value or
an integer value. -/
inductive JsonNum
  | num (q : ℚ)
  | int (n : Int)
deriving DecidableEq, Repr

/-- tensor_element_to_json: std::visit building json(arg) from the active
alternative. -/
def tensor_element_to_json : TensorElement → JsonNum
  | .f32 x => .num x
  | .i32 n => .int n
  | .i64 n => .int n
  | .u8 n => .int (n : Int)

/-- json::get of a floating type: integer payloads convert exactly. -/
def JsonNum.toRat : JsonNum → ℚ
  | .num q => q
  | .int n => (n : ℚ)

/-- json::get of an integer type: a floating payload is truncated toward
zero as by a C++ float-to-int conversion. -/
def JsonNum.toIntTrunc : JsonNum → Int
  | .num q => q.num.tdiv (q.den : Int)
  | .int n => n

/-- Reduction of an Int into the value range of int32_t, as performed by the
static_cast inside json::get of int32_t. -/
def wrap32 (n : Int) : Int := (n + 2 ^ 31) % 2 ^ 32 - 2 ^ 31

/-- Reduction of an Int into the value range of int64_t. -/
def wrap64 (n : Int) : Int := (n + 2 ^ 63) % 2 ^ 64 - 2 ^ 63

/-- json_to_tensor_element: dispatch on the textual type tag; an unknown tag
throws. -/
def json_to_tensor_element (j : JsonNum) (tag : String) :
    Except String TensorElement :=
  if tag = "float" then .ok (.f32 j.toRat)
  else if tag = "int32" then .ok (.i32 (wrap32 j.toIntTrunc))
  else if tag = "int64" then .ok (.i64 (wrap64 j.toIntTrunc))
  else .error ("Unknown tensor element type: " ++ tag)

/-- serialize_inference_results type detection: the tag defaults to "float",
is set to "int32" or "int64" when the FIRST element holds that alternative,
and never tests for the uint8_t alternative. -/
def outputTypeTag (out : List TensorElement) : String :=
  match out.head? with
  | some (TensorElement.i32 _) => "int32"
  | some (TensorElement.i64 _) => "int64"
  | _ => "float"

/-- One record of the response's "outputs" array: type tag, data array,
shape array. -/
structure WireOutput where
  tag : String
  data : List JsonNum
  shape : List Int
deriving DecidableEq, Repr

/-- serialize_inference_results: one wire record per output, pairing
outputs[i] with shapes[i] (the source indexes shapes by the output index;
the zip below agrees with it whenever the two lists have equal length). -/
def serialize_inference_results (outputs : List (List TensorElement))
    (shapes : List (List Int)) : List WireOutput :=
  (outputs.zip shapes).map fun p =>
    ⟨outputTypeTag p.1, p.1.map tensor_element_to_json, p.2⟩

/-- deserialize_inference_results, per record: every data element is parsed
with the record's tag; a parse error propagates as an exception. -/
def deserialize_output (w : WireOutput) :
    Except String (List TensorElement × List Int) :=
  match mapExcept (fun j => json_to_tensor_element j w.tag) w.data with
  | .error e => .error e
  | .ok elems => .ok (elems, w.shape)

def deserialize_inference_results (ws : List WireOutput) :
    Except String (List (List TensorElement) × List (List Int)) :=
  match mapExcept deserialize_output ws with
  | .error e => .error e
  | .ok pairs => .ok (pairs.map Prod.fst, pairs.map Prod.snd)

/-- Elements that survive the round trip under a given tag: the element must
hold the alternative the tag names, and integer payloads must lie in the
machine range of that alternative (they do whenever the value came from an
actual int32_t/int64_t). The uint8_t alternative never satisfies this. -/
def elemOkFor (tag : String) : TensorElement → Bool
  | .f32 _ => tag == "float"
  | .i32 n => tag == "int32" && decide (-(2 ^ 31) ≤ n) && decide (n < 2 ^ 31)
  | .i64 n => tag == "int64" && decide (-(2 ^ 63) ≤ n) && decide (n < 2 ^ 63)
  | .u8 _ => false

/-- A homogeneous non-uint8 output: every element fits the tag derived from
the first element. -/
def roundTrippableOutput (out : List TensorElement) : Bool :=
  out.all (elemOkFor (outputTypeTag out))

/-! ## HTTP server counters and stats (src/server/src/InferenceServer.hpp) -/

/-- The counters visible to handle_stats: the server's two request counters
and the backend's performance counters and memory figure. -/
structure ServerState where
  total_requests : Nat
  failed_requests : Nat
  total_inferences : Nat
  last_inference_time_ms : ℚ
  memory_usage_mb : Nat
deriving DecidableEq, Repr

def initialServerState : ServerState := ⟨0, 0, 0, 0, 0⟩

/-- Counter-relevant request outcomes. backend_times says whether the
backend called end_timer during the call (TVM, GGML and the remote client
do; ORT, Libtorch, OpenCV-DNN and TensorRT do not). -/
inductive ServerEvent
  | inferSuccess (backend_times : Bool) (ms : ℚ)
  | inferFailure (backend_times : Bool) (ms : ℚ)
  | modelInfoSuccess
  | modelInfoFailure
  | healthCheck
  | statsRequest
deriving DecidableEq, Repr

/-- Counter updates of the route handlers: handle_inference increments
total_requests_ on entry and failed_requests_ in its catch block;
handle_model_info increments failed_requests_ (only) in its catch block;
handle_health and handle_stats touch no counter. -/
def serverStep (s : ServerState) : ServerEvent → ServerState
  | .inferSuccess bt ms =>
    { s with
      total_requests := s.total_requests + 1,
      total_inferences := s.total_inferences + (if bt then 1 else 0),
      last_inference_time_ms := if bt then ms else s.last_inference_time_ms }
  | .inferFailure bt ms =>
    { s with
      total_requests := s.total_requests + 1,
      failed_requests := s.failed_requests + 1,
      total_inferences := s.total_inferences + (if bt then 1 else 0),
      last_inference_time_ms := if bt then ms else s.last_inference_time_ms }
  | .modelInfoSuccess => s
  | .modelInfoFailure => { s with failed_requests := s.failed_requests + 1 }
  | .healthCheck => s
  | .statsRequest => s

/-- The JSON object built by handle_stats. -/
structure StatsResponse where
  total_requests : Nat
  failed_requests : Nat
  success_rate : ℚ
  total_inferences : Nat
  avg_inference_time_ms : ℚ
  memory_usage_mb : Nat
deriving DecidableEq, Repr

/-- InferenceServer::handle_stats: success_rate is computed from the guarded
expression 100.0 * (total_requests_ - failed_requests_) / total_requests_,
whose subtraction is size_t arithmetic and therefore wraps modulo 2^64;
avg_inference_time_ms is backend_->get_last_inference_time_ms(). -/
def handle_stats (s : ServerState) : StatsResponse :=
  { total_requests := s.total_requests
    failed_requests := s.failed_requests
    success_rate :=
      if 0 < s.total_requests then
        100 * ((sub64 s.total_requests s.failed_requests : Nat) : ℚ) /
          ((s.total_requests : Nat) : ℚ)
      else 100
    total_inferences := s.total_inferences
    avg_inference_time_ms := s.last_inference_time_ms
    memory_usage_mb := s.memory_usage_mb }

/-! ## Helper lemmas -/

/-- size_t subtraction agrees with Nat subtraction when the minuend is in
range and at least the subtrahend. -/
theorem sub64_eq_sub {t f : Nat} (ht : t < size64) (hf : f ≤ t) :
    sub64 t f = t - f := by
  have hsz : size64 = 2 ^ 64 := rfl
  simp only [sub64, hsz] at *
  omega

/-- A declared ORT shape with the sentinel at a non-batch position and no
override list fails at the missing-override throw site. -/
theorem ortResolveInput_dyn_nosizes (name : String) (d0 : Int)
    (rest : List Int) (i batch : Nat) (hmem : (-1 : Int) ∈ rest) :
    ortResolveInput name (d0 :: rest) [] i batch =
      .error (.missingOverride name) := by
  simp only [ortResolveInput]
  rw [if_pos (Or.inl hmem)]
  simp

/-- A declared ORT shape with no sentinel past position 0 and no override
list resolves by fixing only the batch axis. -/
theorem ortResolveInput_nodyn_nosizes (name : String) (d0 : Int)
    (rest : List Int) (i batch : Nat) (hmem : (-1 : Int) ∉ rest) :
    ortResolveInput name (d0 :: rest) [] i batch =
      .ok ((if d0 = -1 then (batch : Int) else d0) :: rest) := by
  simp only [ortResolveInput]
  rw [if_neg (by simp [hmem])]

/-- Every successful ORT input resolution yields a shape whose position 0 is
batch_size when the declared position 0 was -1 and the declared value
otherwise. -/
theorem ortResolveInput_ok_head (name : String) (d0 : Int) (rest : List Int)
    (sizes : List (List Int)) (i batch : Nat) (r : List Int)
    (h : ortResolveInput name (d0 :: rest) sizes i batch = .ok r) :
    r.head? = some (if d0 = -1 then (batch : Int) else d0) := by
  simp only [ortResolveInput] at h
  repeat' split at h
  any_goals exact Except.noConfusion h
  all_goals (have hx := Except.ok.inj h; subst hx; simp_all)

/-- Characterization of ORT input resolution for a single input with a
supplied override: the not-enough-dims check fires first (only on dynamic
shapes), then the arity check against declared.length - 1, and a passing
override replaces every non-batch position. -/
theorem ortResolveInput_single_override (name : String) (d0 : Int)
    (rest provided : List Int) (batch : Nat) :
    ortResolveInput name (d0 :: rest) [provided] 0 batch =
      if provided.length < (rest.filter (fun d => d == -1)).length ∧
          (-1 : Int) ∈ rest then
        .error (.notEnoughDims name)
      else if provided.length ≠ rest.length then
        .error (.arityMismatch name rest.length provided.length)
      else
        .ok ((if d0 = -1 then (batch : Int) else d0) :: provided) := by
  simp only [ortResolveInput]
  rw [if_pos (Or.inr ⟨by simp, by simp⟩), if_neg (by simp)]
  simp only [List.getD_cons_zero]
  by_cases hmem : (-1 : Int) ∈ rest
  · rw [if_pos hmem]
    by_cases hlt :
        provided.length < (rest.filter (fun d => d == -1)).length
    · rw [if_pos hlt, if_pos ⟨hlt, hmem⟩]
    · rw [if_neg hlt]
      conv_rhs => rw [if_neg
        (show ¬(provided.length <
            (rest.filter (fun d => d == -1)).length ∧ (-1 : Int) ∈ rest)
          from fun hh => hlt hh.1)]
  · rw [if_neg hmem]
    conv_rhs => rw [if_neg
      (show ¬(provided.length <
          (rest.filter (fun d => d == -1)).length ∧ (-1 : Int) ∈ rest)
        from fun hh => hmem hh.2)]

/-- If any declared input carries the sentinel past position 0 and no
overrides are supplied, the ORT constructor's whole input loop aborts with
the missing-override error naming one of the offending inputs. -/
theorem ortResolveInputsFrom_missingOverride (batch : Nat) :
    ∀ (i : Nat) (decls : List (String × List Int)),
      (∃ p ∈ decls, (-1 : Int) ∈ p.2.drop 1) →
      ∃ name, ortResolveInputsFrom [] batch i decls =
          .error (.missingOverride name) ∧
        ∃ p ∈ decls, p.1 = name ∧ (-1 : Int) ∈ p.2.drop 1 := by
  intro i decls
  induction decls generalizing i with
  | nil => simp
  | cons hd tl ih =>
    intro hex
    obtain ⟨n, d⟩ := hd
    by_cases hd1 : (-1 : Int) ∈ d.drop 1
    · refine ⟨n, ?_, ⟨(n, d), List.mem_cons_self _ _, rfl, hd1⟩⟩
      cases d with
      | nil => simp at hd1
      | cons d0 rest =>
        have hres := ortResolveInput_dyn_nosizes n d0 rest i batch
          (by simpa using hd1)
        simp [ortResolveInputsFrom, hres]
    · have hex' : ∃ p ∈ tl, (-1 : Int) ∈ p.2.drop 1 := by
        rcases hex with ⟨p, hp, hpm⟩
        rcases List.mem_cons.mp hp with h | h
        · subst h; exact absurd hpm hd1
        · exact ⟨p, h, hpm⟩
      obtain ⟨name, hres, p, hp, hpn, hpm⟩ := ih (i + 1) hex'
      refine ⟨name, ?_, p, List.mem_cons_of_mem _ hp, hpn, hpm⟩
      cases d with
      | nil => simp [ortResolveInputsFrom, ortResolveInput, hres]
      | cons d0 rest =>
        have hok := ortResolveInput_nodyn_nosizes n d0 rest i batch
          (by simpa using hd1)
        simp [ortResolveInputsFrom, hok, hres]

instance exceptDecidableEq {ε α : Type} [DecidableEq ε] [DecidableEq α] :
    DecidableEq (Except ε α) := fun x y =>
  match x, y with
  | .error a, .error b =>
    if h : a = b then .isTrue (by rw [h]) else .isFalse (by simp [h])
  | .error _, .ok _ => .isFalse (by simp)
  | .ok _, .error _ => .isFalse (by simp)
  | .ok a, .ok b =>
    if h : a = b then .isTrue (by rw [h]) else .isFalse (by simp [h])

/-- Values in int32_t range are fixed by the static_cast reduction. -/
theorem wrap32_eq_self {n : Int} (h1 : -(2 ^ 31) ≤ n) (h2 : n < 2 ^ 31) :
    wrap32 n = n := by
  simp only [wrap32]
  omega

/-- Values in int64_t range are fixed by the static_cast reduction. -/
theorem wrap64_eq_self {n : Int} (h1 : -(2 ^ 63) ≤ n) (h2 : n < 2 ^ 63) :
    wrap64 n = n := by
  simp only [wrap64]
  omega

/-- An element compatible with a tag parses back to itself from its JSON
encoding under that tag. -/
theorem json_roundtrip_elem {tag : String} {e : TensorElement}
    (h : elemOkFor tag e = true) :
    json_to_tensor_element (tensor_element_to_json e) tag = .ok e := by
  cases e with
  | f32 x =>
    simp only [elemOkFor, beq_iff_eq] at h
    subst h
    simp [json_to_tensor_element, tensor_element_to_json, JsonNum.toRat]
  | i32 n =>
    simp only [elemOkFor, Bool.and_eq_true, beq_iff_eq,
      decide_eq_true_eq] at h
    obtain ⟨⟨htag, h1⟩, h2⟩ := h
    subst htag
    simp only [json_to_tensor_element, tensor_element_to_json]
    rw [if_neg (by decide)]
    simp [JsonNum.toIntTrunc, wrap32_eq_self h1 h2]
  | i64 n =>
    simp only [elemOkFor, Bool.and_eq_true, beq_iff_eq,
      decide_eq_true_eq] at h
    obtain ⟨⟨htag, h1⟩, h2⟩ := h
    subst htag
    simp only [json_to_tensor_element, tensor_element_to_json]
    rw [if_neg (by decide), if_neg (by decide)]
    simp [JsonNum.toIntTrunc, wrap64_eq_self h1 h2]
  | u8 n =>
    simp [elemOkFor] at h

/-- A list of tag-compatible elements parses back to itself from its mapped
JSON encoding. -/
theorem mapExcept_map_roundtrip {tag : String} :
    ∀ {l : List TensorElement}, (∀ e ∈ l, elemOkFor tag e = true) →
      mapExcept (fun j => json_to_tensor_element j tag)
        (l.map tensor_element_to_json) = .ok l := by
  intro l
  induction l with
  | nil => intro _; rfl
  | cons a as ih =>
    intro h
    have ha := h a (List.mem_cons_self a as)
    have has : ∀ e ∈ as, elemOkFor tag e = true :=
      fun e he => h e (List.mem_cons_of_mem a he)
    simp only [List.map_cons, mapExcept, json_roundtrip_elem ha, ih has]

/-- One wire record round-trips when its output is homogeneous non-uint8. -/
theorem deserialize_output_roundtrip (o : List TensorElement)
    (s : List Int) (h : roundTrippableOutput o = true) :
    deserialize_output ⟨outputTypeTag o, o.map tensor_element_to_json, s⟩ =
      .ok (o, s) := by
  have h' : ∀ e ∈ o, elemOkFor (outputTypeTag o) e = true := by
    simpa [roundTrippableOutput, List.all_eq_true] using h
  simp only [deserialize_output, mapExcept_map_roundtrip h']

/-- The whole response round-trips to the zipped output/shape pairs. -/
theorem serialize_roundtrip_aux :
    ∀ (outputs : List (List TensorElement)) (shapes : List (List Int)),
      outputs.length = shapes.length →
      (∀ o ∈ outputs, roundTrippableOutput o = true) →
      mapExcept deserialize_output
          (serialize_inference_results outputs shapes) =
        .ok (outputs.zip shapes) := by
  intro outputs
  induction outputs with
  | nil => intro shapes _ _; rfl
  | cons o os ih =>
    intro shapes hlen hall
    cases shapes with
    | nil => simp at hlen
    | cons s ss =>
      have h1 := hall o (List.mem_cons_self _ _)
      have h2 : ∀ x ∈ os, roundTrippableOutput x = true :=
        fun x hx => hall x (List.mem_cons_of_mem _ hx)
      have hlen' : os.length = ss.length := by simpa using hlen
      have hrec := ih ss hlen' h2
      simp only [serialize_inference_results, List.zip_cons_cons,
        List.map_cons] at hrec ⊢
      simp only [mapExcept, deserialize_output_roundtrip o s h1, hrec]

/-! ## Claim theorems -/

/-- Claim C1 (amended): position 0 of a resolved input shape equals
batch_size only when the declared position 0 is the -1 sentinel; a concrete
declared batch dimension is kept as declared, whatever the override supplied
(ORT never reads the override for position 0). In the Libtorch dynamic
branch, the resolved shape is the override verbatim, position 0 included. -/
theorem C1_batch_axis :
    (∀ (name : String) (d0 : Int) (rest : List Int)
        (sizes : List (List Int)) (i batch : Nat) (r : List Int),
      ortResolveInput name (d0 :: rest) sizes i batch = .ok r →
      r.head? = some (if d0 = -1 then (batch : Int) else d0)) ∧
    (∀ (name : String) (sizes : List (List Int)) (idx : Nat),
      sizes ≠ [] → idx < sizes.length →
      libtorchResolveInput name none sizes idx = .ok (sizes.getD idx [])) := by
  constructor
  · exact ortResolveInput_ok_head
  · intro name sizes idx hne hlt
    have h1 : ¬(sizes = [] ∨ sizes.length ≤ idx) := by
      push_neg
      exact ⟨hne, by omega⟩
    simp [libtorchResolveInput, h1]

/-- Claim C1 witness: instantiation of C1_batch_axis: an ORT input declared
[-1, 3] with batch size 4 resolves with head 4, and a dynamic Libtorch input
with override [9, 3, 5] resolves to [9, 3, 5] verbatim. -/
theorem C1_witness :
    ([(4 : Int), 3].head? =
      some (if (-1 : Int) = -1 then ((4 : Nat) : Int) else -1)) ∧
    libtorchResolveInput "x" none [[9, 3, 5]] 0 = .ok [9, 3, 5] :=
  ⟨C1_batch_axis.1 "x" (-1) [3] [] 0 4 [4, 3] (by rfl),
   C1_batch_axis.2 "x" [[9, 3, 5]] 0 (by decide) (by decide)⟩

/-- Claim C1 counterexample: an ORT input declared [2, 3, 4] with batch_size
1 resolves successfully to [2, 3, 4]: the batch axis stays at the declared
value 2 instead of being set to batch_size. -/
theorem C1_counterexample :
    ortResolveInput "input" [2, 3, 4] [] 0 1 = .ok [2, 3, 4] ∧
    ([2, 3, 4] : List Int).head? ≠ some (1 : Int) := by
  exact ⟨by rfl, by decide⟩

/-- Claim C2 (amended): only the ORT backend enforces the byte-length
contract (its call proceeds iff the buffer length equals
expected_elements * element_size, otherwise it throws); the OpenCV-DNN
prologue proceeds for every buffer length, the TensorRT validation copies
the caller's actual byte count after at most a log warning, and Libtorch
accepts any buffer whose length is a multiple of the element size,
regardless of the resolved shape. -/
theorem C2_size_validation :
    (∀ (shape : List Int) (t : OnnxType) (buflen esz : Nat),
      ortElementSize t = some esz →
      (ortValidateInputSize shape t buflen = InferCheck.proceeds ↔
        buflen = mul64 (ortExpectedElements shape) esz)) ∧
    (∀ (shape : List Int) (buflen : Nat),
      ocvdnnInputCheck 1 shape buflen = InferCheck.proceeds) ∧
    (∀ (dims : List Int) (esz actual : Nat),
      (trtInputValidation dims esz actual).2 = actual) ∧
    (∀ (buflen : Nat), buflen % 4 = 0 →
      libtorchInputCheck 4 buflen = InferCheck.proceeds) := by
  refine ⟨?_, ?_, ?_, ?_⟩
  · intro shape t buflen esz h
    simp only [ortValidateInputSize, h]
    constructor
    · intro hp
      by_contra hne
      simp [hne] at hp
    · intro he
      simp [he]
  · intro shape buflen
    simp only [ocvdnnInputCheck]
    norm_num
  · intro dims esz actual
    rfl
  · intro buflen h
    simp [libtorchInputCheck, h]

/-- Claim C2 witness: instantiation of C2_size_validation: an ORT float
input of shape [1, 2] accepts exactly an 8-byte buffer, and Libtorch accepts
an 8-byte buffer for element size 4 whatever the shape. -/
theorem C2_witness :
    ortValidateInputSize [1, 2] OnnxType.float 8 = InferCheck.proceeds ∧
    libtorchInputCheck 4 8 = InferCheck.proceeds :=
  ⟨(C2_size_validation.1 [1, 2] OnnxType.float 8 4 rfl).mpr (by decide),
   C2_size_validation.2.2.2 8 (by decide)⟩

/-- Claim C2 counterexample: the OpenCV-DNN backend proceeds to inference
with a 602113-byte buffer for a float input of resolved shape
[1, 3, 224, 224], whose expected byte length is 602112: the mismatch is
not fatal to the call. -/
theorem C2_counterexample :
    ocvdnnInputCheck 1 [1, 3, 224, 224] 602113 = InferCheck.proceeds ∧
    602113 ≠ mul64 (ocvdnnExpectedElements [1, 3, 224, 224]) 4 := by
  exact ⟨by decide, by decide⟩

/-- Claim C3 (amended): the TVM backend wraps native load failures in
ModelLoadException and TVM/GGML wrap native inference failures in
InferenceExecutionException, but the ORT and Libtorch constructors terminate
the process with exit(1) on a native load failure, and ORT's output decoding
terminates the process with exit(1) on an unsupported element type, so the
error path does not always surface an error value. -/
theorem C3_error_disposition (msg : String) :
    tvmLoadModel false msg = LoadOutcome.throwsModelLoad msg ∧
    tvmLoadModel true msg = LoadOutcome.ready ∧
    tvmRunInference false msg = InferOutcome.throwsInferExec msg ∧
    ggmlRunInference false msg = InferOutcome.throwsInferExec msg ∧
    ortLoadModel false = LoadOutcome.exitProcess 1 ∧
    libtorchLoadModel false = LoadOutcome.exitProcess 1 ∧
    ortDecodeOutputOutcome OnnxType.int32 = InferOutcome.exitProcess 1 := by
  simp [tvmLoadModel, tvmRunInference, ggmlRunInference, ortLoadModel,
    libtorchLoadModel, ortDecodeOutputOutcome]

/-- Claim C3 counterexample: a native load failure in the ORT backend
terminates the process with exit code 1 instead of surfacing a taxonomy
exception, and so does an unsupported output element type during inference. -/
theorem C3_counterexample :
    ortLoadModel false = LoadOutcome.exitProcess 1 ∧
    ortDecodeOutputOutcome OnnxType.int32 = InferOutcome.exitProcess 1 := by
  exact ⟨rfl, rfl⟩

/-- Claim C4 (amended): get_model_info on an instance whose metadata has had
no add-call returns a default-populated ModelInfo with input "input"
[3,224,224] batch 1 and output "output" [1000] batch 1; it is noexcept and
never reports a ModelLoadException. -/
theorem C4_get_model_info_defaults (m : ModelInfo)
    (hi : m.inputs = []) (ho : m.outputs = []) :
    get_model_info m =
      ⟨[⟨"input", [3, 224, 224], 1⟩], [⟨"output", [1000], 1⟩]⟩ ∧
    (get_model_info m).inputs ≠ [] := by
  cases m
  simp_all [get_model_info, ModelInfo.addInput, ModelInfo.addOutput]

/-- Claim C4 witness: instantiation of C4_get_model_info_defaults at the
empty metadata. -/
theorem C4_witness :
    get_model_info emptyModelInfo =
      ⟨[⟨"input", [3, 224, 224], 1⟩], [⟨"output", [1000], 1⟩]⟩ :=
  (C4_get_model_info_defaults emptyModelInfo rfl rfl).1

/-- Claim C4 counterexample: calling get_model_info on an instance with no
add-call returns the default-populated result instead of failing. -/
theorem C4_counterexample :
    get_model_info ⟨[], []⟩ =
      (⟨[⟨"input", [3, 224, 224], 1⟩], [⟨"output", [1000], 1⟩]⟩ : ModelInfo) ∧
    (⟨[⟨"input", [3, 224, 224], 1⟩], [⟨"output", [1000], 1⟩]⟩ : ModelInfo) ≠
      (⟨[], []⟩ : ModelInfo) := by
  exact ⟨rfl, by decide⟩

/-- Claim C5 (amended): end_timer stores the elapsed time and increments the
total-inference counter by exactly one, and the backends that call it (TVM
on success, GGML on success and failure) gain exactly one count per call —
two sequential timed calls add exactly two — but ORT's get_infer_results
never calls it, so a successful ORT call leaves both counters unchanged. -/
theorem C5_counters (c : PerfCounters) (e e2 : ℚ) :
    (end_timer c e).total_inferences = c.total_inferences + 1 ∧
    (end_timer c e).last_inference_time_ms = e ∧
    ortInferCounters c = c ∧
    (tvmInferCountersSuccess (tvmInferCountersSuccess c e) e2).total_inferences
      = c.total_inferences + 2 ∧
    (ggmlInferCountersFailure c e).total_inferences = c.total_inferences + 1 := by
  simp [end_timer, ortInferCounters, tvmInferCountersSuccess,
    ggmlInferCountersFailure]

/-- Claim C5 counterexample: a successful ORT inference call leaves the
total-inference counter at its previous value instead of incrementing it. -/
theorem C5_counterexample :
    (ortInferCounters ⟨0, 7⟩).total_inferences = 7 ∧ (7 : Nat) ≠ 7 + 1 := by
  exact ⟨rfl, by decide⟩

/-- Claim C6 (amended): GET /stats returns an object with total_requests,
failed_requests, success_rate, total_inferences, avg_inference_time_ms and
memory_usage_mb, and no handler ever decreases the request or inference
counters; however avg_inference_time_ms reports the backend's LAST inference
time, not the average over all inferences performed. -/
theorem C6_stats (s : ServerState) (e : ServerEvent) :
    (s.total_requests ≤ (serverStep s e).total_requests ∧
     s.failed_requests ≤ (serverStep s e).failed_requests ∧
     s.total_inferences ≤ (serverStep s e).total_inferences) ∧
    ((handle_stats s).total_requests = s.total_requests ∧
     (handle_stats s).failed_requests = s.failed_requests ∧
     (handle_stats s).total_inferences = s.total_inferences ∧
     (handle_stats s).avg_inference_time_ms = s.last_inference_time_ms ∧
     (handle_stats s).memory_usage_mb = s.memory_usage_mb) := by
  constructor
  · cases e with
    | inferSuccess bt ms => cases bt <;> simp [serverStep]
    | inferFailure bt ms => cases bt <;> simp [serverStep]
    | modelInfoSuccess => simp [serverStep]
    | modelInfoFailure => simp [serverStep]
    | healthCheck => simp [serverStep]
    | statsRequest => simp [serverStep]
  · simp [handle_stats]

/-- Claim C6 counterexample: after two successful timed inferences with
latencies 10 ms and 20 ms, the stats handler reports
avg_inference_time_ms = 20 (the last latency), not the average 15. -/
theorem C6_counterexample :
    (handle_stats (serverStep (serverStep initialServerState
        (ServerEvent.inferSuccess true 10))
        (ServerEvent.inferSuccess true 20))).avg_inference_time_ms = 20 ∧
    (20 : ℚ) ≠ (10 + 20) / 2 := by
  constructor
  · rfl
  · norm_num

/-- Claim C7 (amended): the wire round-trip law holds for Float32, Int32
and Int64 outputs (homogeneous, with integer payloads in their machine
range, as any value produced by the backends is): serializing and
deserializing returns the same element values and the same shapes. It fails
for UInt8: the serializer never tests for the uint8_t alternative, tags such
outputs "float", and they deserialize as Float32 elements. -/
theorem C7_roundtrip (outputs : List (List TensorElement))
    (shapes : List (List Int)) (hlen : outputs.length = shapes.length)
    (hall : ∀ o ∈ outputs, roundTrippableOutput o = true) :
    deserialize_inference_results
        (serialize_inference_results outputs shapes) =
      .ok (outputs, shapes) := by
  simp only [deserialize_inference_results,
    serialize_roundtrip_aux outputs shapes hlen hall]
  rw [List.map_fst_zip outputs shapes (le_of_eq hlen),
    List.map_snd_zip outputs shapes (le_of_eq hlen.symm)]

/-- Claim C7 witness: instantiation of C7_roundtrip at a two-element float
output of shape [2]. -/
theorem C7_witness :
    deserialize_inference_results (serialize_inference_results
        [[TensorElement.f32 1, TensorElement.f32 2]] [[2]]) =
      .ok ([[TensorElement.f32 1, TensorElement.f32 2]], [[2]]) :=
  C7_roundtrip [[TensorElement.f32 1, TensorElement.f32 2]] [[2]]
    (by decide) (by decide)

/-- Claim C7 counterexample: a UInt8 tensor [5] of shape [1] round-trips to
the Float32 tensor [5.0]: the numeric value survives but the element type
does not, so the round-trip law fails for UInt8. -/
theorem C7_counterexample :
    deserialize_inference_results (serialize_inference_results
        [[TensorElement.u8 5]] [[1]]) =
      .ok ([[TensorElement.f32 5]], [[1]]) ∧
    [[TensorElement.f32 5]] ≠ [[TensorElement.u8 5]] := by
  exact ⟨by decide, by decide⟩

/-- Claim C8 (amended): the ORT constructor accepts a supplied override only
when its length equals declared.length - 1 — an override of length
declared.length is rejected with the arity-mismatch error, not accepted —
while the TensorRT first pass accepts full-rank overrides as-is, rank-1
overrides with the batch prepended, and silently uses any other override
truncated to MAX_DIMS, reporting no arity error at all. -/
theorem C8_arity :
    (∀ (name : String) (d0 : Int) (rest provided : List Int) (batch : Nat),
      ((∃ r, ortResolveInput name (d0 :: rest) [provided] 0 batch = .ok r) ↔
        provided.length = rest.length)) ∧
    (∀ (name : String) (d0 : Int) (rest provided : List Int) (batch : Nat),
      provided.length = rest.length + 1 →
      ortResolveInput name (d0 :: rest) [provided] 0 batch =
        .error (.arityMismatch name rest.length provided.length)) ∧
    (∀ (engine_dims override : List Int) (batch : Nat),
      override.length ≠ engine_dims.length →
      override.length ≠ engine_dims.length - 1 →
      trtSetInputDims engine_dims override batch =
        override.take trtMaxDims) := by
  refine ⟨?_, ?_, ?_⟩
  · intro name d0 rest provided batch
    rw [ortResolveInput_single_override]
    constructor
    · rintro ⟨r, hr⟩
      split at hr
      · exact Except.noConfusion hr
      · split at hr
        · exact Except.noConfusion hr
        · rename_i hne
          exact not_not.mp (fun hh => hne hh)
    · intro heq
      have hlt : ¬(provided.length <
          (rest.filter (fun d => d == -1)).length ∧ (-1 : Int) ∈ rest) := by
        rintro ⟨hl, _⟩
        have := List.length_filter_le (fun d => d == -1) rest
        omega
      rw [if_neg hlt, if_neg (by omega)]
      exact ⟨_, rfl⟩
  · intro name d0 rest provided batch hlen
    rw [ortResolveInput_single_override]
    have hlt : ¬(provided.length <
        (rest.filter (fun d => d == -1)).length ∧ (-1 : Int) ∈ rest) := by
      rintro ⟨hl, _⟩
      have := List.length_filter_le (fun d => d == -1) rest
      omega
    rw [if_neg hlt, if_pos (by omega)]
  · intro engine_dims override batch h1 h2
    simp only [trtSetInputDims]
    rw [if_neg h1, if_neg h2]

/-- Claim C8 witness: instantiation of C8_arity: an ORT input declared
[1, 3] given the full-length override [2, 4] is rejected with the arity
error, and TensorRT silently resolves a length-2 override against 4-dim
engine dims. -/
theorem C8_witness :
    ortResolveInput "x" [1, 3] [[2, 4]] 0 1 =
      .error (.arityMismatch "x" 1 2) ∧
    trtSetInputDims [1, 3, 224, 224] [224, 224] 1 =
      ([224, 224] : List Int).take trtMaxDims :=
  ⟨C8_arity.2.1 "x" 1 [3] [2, 4] 1 (by decide),
   C8_arity.2.2 [1, 3, 224, 224] [224, 224] 1 (by decide) (by decide)⟩

/-- Claim C8 counterexample: a TensorRT override of length 2 against engine
dims of rank 4 matches neither declared.length nor declared.length - 1, yet
resolution succeeds (yielding the override itself) instead of failing with
an arity-mismatch error. -/
theorem C8_counterexample :
    trtSetInputDims [1, 3, 224, 224] [224, 224] 1 = [224, 224] ∧
    ([224, 224] : List Int).length ≠ 4 ∧
    ([224, 224] : List Int).length ≠ 3 := by
  exact ⟨by decide, by decide, by decide⟩

/-- Claim C9 (confirmed): a declared ORT input shape carrying the -1
sentinel at a non-batch position with no supplied overrides fails at the
missing-override throw site naming that input; a dynamic Libtorch input with
no overrides does the same; and the ORT constructor's whole input loop
aborts with that error (naming an offending input) whenever any declared
input is dynamic and no overrides were given, so no partially-initialized
backend survives. -/
theorem C9_missing_override :
    (∀ (name : String) (d0 : Int) (rest : List Int) (i batch : Nat),
      (-1 : Int) ∈ rest →
      ortResolveInput name (d0 :: rest) [] i batch =
        .error (.missingOverride name)) ∧
    (∀ (name : String) (idx : Nat),
      libtorchResolveInput name none [] idx =
        .error (.missingOverride name)) ∧
    (∀ (decls : List (String × List Int)) (batch : Nat),
      (∃ p ∈ decls, (-1 : Int) ∈ p.2.drop 1) →
      ∃ name, ortResolveInputs decls [] batch =
          .error (.missingOverride name) ∧
        ∃ p ∈ decls, p.1 = name ∧ (-1 : Int) ∈ p.2.drop 1) := by
  refine ⟨?_, ?_, ?_⟩
  · intro name d0 rest i batch hmem
    exact ortResolveInput_dyn_nosizes name d0 rest i batch hmem
  · intro name idx
    simp [libtorchResolveInput]
  · intro decls batch hex
    exact ortResolveInputsFrom_missingOverride batch 0 decls hex

/-- Claim C9 witness: instantiation of C9_missing_override: an input named
"images" declared [1, 3, -1, -1] with no overrides fails with the
missing-override error naming "images". -/
theorem C9_witness :
    ortResolveInput "images" [1, 3, -1, -1] [] 0 1 =
      .error (.missingOverride "images") :=
  C9_missing_override.1 "images" 1 [3, -1, -1] 0 1 (by decide)

/-- Claim C10 (amended): the stats handler never divides by zero: with
total_requests = 0 the reported success_rate is exactly 100; with
total_requests > 0 (and in range of size_t) the rate equals
100 * (total_requests - failed_requests) / total_requests whenever
failed_requests ≤ total_requests. (When failed_requests exceeds
total_requests — reachable, since model_info failures increment only the
failure counter — the size_t subtraction wraps modulo 2^64 instead.) -/
theorem C10_success_rate (s : ServerState) :
    (s.total_requests = 0 → (handle_stats s).success_rate = 100) ∧
    (0 < s.total_requests → s.total_requests < size64 →
      s.failed_requests ≤ s.total_requests →
      (handle_stats s).success_rate =
        100 * ((s.total_requests : ℚ) - (s.failed_requests : ℚ)) /
          (s.total_requests : ℚ)) := by
  constructor
  · intro h
    simp [handle_stats, h]
  · intro hpos hlt hle
    simp only [handle_stats, hpos, if_pos]
    rw [sub64_eq_sub hlt hle]
    rw [Nat.cast_sub hle]

/-- Claim C10 witness: instantiation of C10_success_rate at the state with
5 total requests and 2 failed requests. -/
theorem C10_witness :
    (handle_stats ⟨5, 2, 0, 0, 0⟩).success_rate =
      100 * ((5 : ℚ) - (2 : ℚ)) / (5 : ℚ) :=
  (C10_success_rate ⟨5, 2, 0, 0, 0⟩).2 (by norm_num)
    (by norm_num [size64]) (by norm_num)

/-- Claim C10 counterexample: from the initial state, two failed model_info
requests followed by one failed inference request reach total_requests = 1,
failed_requests = 3; the handler then reports
success_rate = 100 * (2^64 - 2), not 100 * (1 - 3) / 1 = -200 as the
claimed formula would give. -/
theorem C10_counterexample :
    (handle_stats (serverStep (serverStep (serverStep initialServerState
        ServerEvent.modelInfoFailure) ServerEvent.modelInfoFailure)
        (ServerEvent.inferFailure false 0))).success_rate
      = 100 * ((2 : ℚ) ^ 64 - 2) ∧
    100 * ((2 : ℚ) ^ 64 - 2) ≠ 100 * (((1 : ℚ) - 3) / 1) := by
  constructor
  · norm_num [handle_stats, serverStep, initialServerState, sub64, size64]
  · norm_num

end Neuriplo
